import Mathlib

/-!
Verification development for the `ardence-dispatch` ticket-notification relay.

The repository is TypeScript glue between a ticketing API and the Microsoft
Teams bot framework.  This file gives a shallow embedding of its data model
and operations:

* `src/ardence-bot/src/notification-endpoint.ts` — the express `/notify`
  handler (`setupNotificationEndpoint`) and the identity resolver
  (`userMappings`, `DEFAULT_USER_ID`, `getTeamsUserId`);
* `src/ardence-bot/src/bot.ts` — the `EmptyBot` message / members-added
  handlers and the `TeamsNotifier.formatMessage` renderer;
* `src/ardence-bot/src/index.ts` — the two restify `/notify` handler
  variants;
* the ticket poller (`ticket_processor.py`), documented by the repository
  README but absent from the source tree, modelled from the spec.

JavaScript truthiness matters at two places (`x || DEFAULT`, the ternary on
`priority`, `if (!channelId)`): the empty string is falsy.  The helpers
`jsTruthyStr` and `jsOrStr` make that explicit.
-/

/-- JavaScript truthiness of a possibly-absent string: `undefined` and the
empty string are falsy, every other string is truthy. -/
def jsTruthyStr : Option String → Bool
  | none => false
  | some s => s ≠ ""

/-- JavaScript `x || d` where `x` is a possibly-absent string: returns the
default `d` whenever `x` is falsy (`undefined` or the empty string). -/
def jsOrStr (x : Option String) (d : String) : String :=
  match x with
  | none => d
  | some s => if s = "" then d else s

/-! ## Identity resolver (`notification-endpoint.ts`, lines 22-49) -/

/-- `DEFAULT_USER_ID` from `notification-endpoint.ts` line 28: the default
user ID used when a specific mapping is not found. -/
def DEFAULT_USER_ID : String := "a1e82718-6bb0-40ee-b14e-d6fedc3bd575"

/-- `userMappings` from `notification-endpoint.ts` lines 32-40: the static
map of technician names to their Teams user IDs, as an association list. -/
def userMappings : List (String × String) :=
  [ ("Yolanda Cao", "a1e82718-6bb0-40ee-b14e-d6fedc3bd575"),
    ("Michael Barbin", "a1e82718-6bb0-40ee-b14e-d6fedc3bd575"),
    ("Jomaree Lawsin", "a1e82718-6bb0-40ee-b14e-d6fedc3bd575"),
    ("Carl Tamayo", "a1e82718-6bb0-40ee-b14e-d6fedc3bd575"),
    ("Jorenzo Lucero", "a1e82718-6bb0-40ee-b14e-d6fedc3bd575"),
    ("Carl Lim", "a1e82718-6bb0-40ee-b14e-d6fedc3bd575"),
    ("Needs human input", "") ]

/-- The JavaScript property access `userMappings[technicianName]`: the value
stored under the key, or `none` when the key is absent. -/
def lookupMapping (technicianName : String) : Option String :=
  (userMappings.find? (fun row => row.1 == technicianName)).map (fun row => row.2)

/-- `getTeamsUserId` from `notification-endpoint.ts` lines 47-49:
`return userMappings[technicianName] || DEFAULT_USER_ID;`. -/
def getTeamsUserId (technicianName : String) : String :=
  jsOrStr (lookupMapping technicianName) DEFAULT_USER_ID

/-! ## `TeamsNotifier` (`bot.ts`, lines 40-86) -/

/-- `TicketNotification` from `bot.ts` lines 40-47. -/
structure TicketNotification where
  ticketId : Nat
  subject : String
  assignedTo : String
  teamsMention : String
  category : String
  priority : Option String
deriving DecidableEq, Repr

/-- The JavaScript ternary
`notification.priority ? `**Priority:** ${notification.priority}\n` : ''`
from `bot.ts` line 82: renders the priority line only when `priority` is
truthy (present and non-empty). -/
def priorityPart (priority : Option String) : String :=
  match priority with
  | none => ""
  | some p => if p = "" then "" else "**Priority:** " ++ p ++ "\n"

/-- `TeamsNotifier.formatMessage` from `bot.ts` lines 77-85. -/
def formatMessage (notification : TicketNotification) : String :=
  "🎫 **New Ticket Assignment**\n\n" ++
  "**Ticket #" ++ toString notification.ticketId ++ "**\n" ++
  "**Subject:** " ++ notification.subject ++ "\n" ++
  "**Category:** " ++ notification.category ++ "\n" ++
  priorityPart notification.priority ++
  "**Assigned To:** " ++ notification.teamsMention ++ "\n\n" ++
  "Please review and acknowledge this ticket."

/-! ## The `/notify` relay handlers

`index.ts` contains two restify variants of `server.post('/notify', ...)`
(lines 66-164 and 228-322); `notification-endpoint.ts` contains an express
variant (`setupNotificationEndpoint`, lines 4-15).  Each handler is embedded
as a function of the environment, the parsed request payload and the outcome
of the single downstream chat-delivery call. -/

/-- The `/notify` request body destructured by the restify handlers:
`const { ticketId, assignedTo, summary } = req.body;`.  The `userId` field
of the spec-level payload shape is carried along so that claims about it can
be stated; neither restify handler reads it. -/
structure NotifyPayload where
  ticketId : Nat
  assignedTo : String
  summary : String
  userId : Option String
deriving DecidableEq, Repr

/-- The environment variables the `/notify` handlers read.  `none` models an
unset variable. -/
structure Env where
  TEAMS_CHANNEL_ID : Option String
  MicrosoftTeamsChannelId : Option String
  TEAMS_BOT_APP_ID : Option String
  MicrosoftAppId : Option String
deriving DecidableEq, Repr

/-- Outcome of the downstream chat-delivery call
(`adapter.continueConversationAsync` / `conversations.sendToConversation`):
either it succeeds or it throws with an error message. -/
inductive DeliveryOutcome where
  | ok : DeliveryOutcome
  | failure (err : String) : DeliveryOutcome
deriving DecidableEq, Repr

/-- The adaptive card built by the restify handlers (`index.ts` lines
86-115): title, assignment text, summary text and the action URL. -/
structure AdaptiveCard where
  title : String
  assignmentText : String
  summaryText : String
  actionUrl : String
deriving DecidableEq, Repr

/-- Builds the adaptive card of the restify handlers from the payload
fields. -/
def mkCard (ticketId : Nat) (assignedTo summary : String) : AdaptiveCard :=
  { title := "🎫 New Ticket Assigned",
    assignmentText :=
      "New ticket #" ++ toString ticketId ++ " has been assigned to " ++ assignedTo ++ ".",
    summaryText := "Summary: " ++ summary,
    actionUrl := "https://cloudavize.syncromsp.com/tickets/" ++ toString ticketId }

/-- A message a `/notify` handler hands to the chat connector.  The source
handlers only ever construct `card` (restify) or `text` (express) messages;
the `mention` constructor exists so the spec property "a separate message
rendering an @-mention" can be stated about the output. -/
inductive SentMessage where
  | card (c : AdaptiveCard) : SentMessage
  | text (s : String) : SentMessage
  | mention (userId : String) : SentMessage
deriving DecidableEq, Repr

/-- Whether a message is an @-mention message. -/
def isMentionMsg : SentMessage → Bool
  | SentMessage.mention _ => true
  | _ => false

/-- The HTTP response a handler produces: `res.send(status, body)`. -/
structure HttpResponse where
  status : Nat
  body : String
deriving DecidableEq, Repr

/-- Observable result of one `/notify` handler invocation: the HTTP
response, how many downstream delivery calls were made, which messages those
calls carried, and the error lines written to the console. -/
structure HandlerResult where
  response : HttpResponse
  deliveryAttempts : Nat
  attempted : List SentMessage
  errorLogs : List String
deriving DecidableEq, Repr

/-- First restify `/notify` handler, `index.ts` lines 66-164.  Reads
`TEAMS_CHANNEL_ID`; on a falsy channel ID it returns 500 before any
connector call; otherwise it attempts delivery of the card once and answers
200 whether or not delivery succeeded (inner catch sends `200 'OK'`). -/
def notifyHandlerV1 (env : Env) (p : NotifyPayload) (d : DeliveryOutcome) : HandlerResult :=
  if jsTruthyStr env.TEAMS_CHANNEL_ID = false then
    { response := { status := 500, body := "Teams channel ID not configured" },
      deliveryAttempts := 0,
      attempted := [],
      errorLogs := ["TEAMS_CHANNEL_ID not configured in environment variables"] }
  else
    let card := mkCard p.ticketId p.assignedTo p.summary
    match d with
    | DeliveryOutcome.ok =>
        { response := { status := 200, body := "Notification sent to Teams" },
          deliveryAttempts := 1,
          attempted := [SentMessage.card card],
          errorLogs := [] }
    | DeliveryOutcome.failure err =>
        { response := { status := 200, body := "OK" },
          deliveryAttempts := 1,
          attempted := [SentMessage.card card],
          errorLogs := ["Error sending to Teams: " ++ err,
                        "Teams delivery failed but continuing silently"] }

/-- Second restify `/notify` handler, `index.ts` lines 228-322.  Identical
shape but reads `MicrosoftTeamsChannelId` and answers the delivery failure
with `200 'Notification received but Teams delivery failed'`. -/
def notifyHandlerV2 (env : Env) (p : NotifyPayload) (d : DeliveryOutcome) : HandlerResult :=
  if jsTruthyStr env.MicrosoftTeamsChannelId = false then
    { response := { status := 500, body := "Teams channel ID not configured" },
      deliveryAttempts := 0,
      attempted := [],
      errorLogs := ["MicrosoftTeamsChannelId not configured in environment variables"] }
  else
    let card := mkCard p.ticketId p.assignedTo p.summary
    match d with
    | DeliveryOutcome.ok =>
        { response := { status := 200, body := "Notification sent to Teams" },
          deliveryAttempts := 1,
          attempted := [SentMessage.card card],
          errorLogs := [] }
    | DeliveryOutcome.failure err =>
        { response := { status := 200, body := "Notification received but Teams delivery failed" },
          deliveryAttempts := 1,
          attempted := [SentMessage.card card],
          errorLogs := ["Error sending to Teams: " ++ err] }

/-- Express `/notify` handler registered by `setupNotificationEndpoint`
(`notification-endpoint.ts` lines 4-15).  It forwards the body to
`TeamsNotifier.sendTicketNotification` (one `sendToConversation` call
carrying the formatted text, `bot.ts` lines 59-75); a throw from that call
is caught and answered with `500 'Failed to send notification'`. -/
def expressNotifyHandler (n : TicketNotification) (d : DeliveryOutcome) : HandlerResult :=
  match d with
  | DeliveryOutcome.ok =>
      { response := { status := 200, body := "Notification sent successfully" },
        deliveryAttempts := 1,
        attempted := [SentMessage.text (formatMessage n)],
        errorLogs := [] }
  | DeliveryOutcome.failure err =>
      { response := { status := 500, body := "Failed to send notification" },
        deliveryAttempts := 1,
        attempted := [SentMessage.text (formatMessage n)],
        errorLogs := ["Error sending notification: " ++ err] }

/-! ## `EmptyBot` conversational handlers (`bot.ts`, lines 3-36) -/

/-- A chat-platform account as read by the bot: `id`, `name` and the
optional `aadObjectId`. -/
structure ChannelAccount where
  id : String
  name : String
  aadObjectId : Option String
deriving DecidableEq, Repr

/-- The slice of an inbound message activity the `onMessage` handler reads:
the (possibly absent) `text` and the sender (`activity.from`). -/
structure MessageActivity where
  text : Option String
  sender : ChannelAccount
deriving DecidableEq, Repr

/-- JavaScript `s.toLowerCase()`: lowercase every character. -/
def strToLower (s : String) : String :=
  String.mk (s.data.map Char.toLower)

/-- Whether `needle` occurs as a contiguous run starting at some position of
the character list. -/
def includesAux (needle : List Char) : List Char → Bool
  | [] => needle.isEmpty
  | c :: rest => List.isPrefixOf needle (c :: rest) || includesAux needle rest

/-- JavaScript `haystack.includes(needle)`: `needle` occurs as a contiguous
substring of `haystack`. -/
def strIncludes (haystack needle : String) : Bool :=
  includesAux needle.data haystack.data

/-- The condition of `bot.ts` line 16:
`context.activity.text.toLowerCase().includes('my id')`. -/
def containsMyId (text : String) : Bool :=
  strIncludes (strToLower text) "my id"

/-- Spec-side predicate, stated in the spec vocabulary: the message text
contains the needle as a case-insensitive substring (both sides lowered). -/
def caseInsensitiveContains (haystack needle : String) : Bool :=
  strIncludes (strToLower haystack) (strToLower needle)

/-- The reply of `bot.ts` line 17; `aadObjectId || 'Not available'` follows
JavaScript truthiness. -/
def idReply (sender : ChannelAccount) : String :=
  "Your Teams ID: " ++ sender.id ++ "\nYour AAD ID: " ++
    jsOrStr sender.aadObjectId "Not available"

/-- The echo reply of `bot.ts` line 19: `You said '${text}'`. -/
def echoReply (text : String) : String :=
  "You said \x27" ++ text ++ "\x27"

/-- The error a turn can raise.  `nullText` stands for the `TypeError`
thrown by `text.toLowerCase()` when the activity carries no text. -/
inductive TurnError where
  | nullText : TurnError
deriving DecidableEq, Repr

/-- `EmptyBot.onMessage` (`bot.ts` lines 7-23): accesses
`activity.text.toLowerCase()` unconditionally, so an activity without text
throws; otherwise it sends exactly one reply, chosen by `containsMyId`. -/
def onMessage (a : MessageActivity) : Except TurnError (List String) :=
  match a.text with
  | none => Except.error TurnError.nullText
  | some t =>
      if containsMyId t then Except.ok [idReply a.sender]
      else Except.ok [echoReply t]

/-- `adapter.onTurnError` (`index.ts` lines 38-54, first variant): logs the
error and sends a trace activity; no reply reaches the user. -/
def onTurnError (e : TurnError) : List String :=
  match e with
  | TurnError.nullText => ["[onTurnError] unhandled error: TypeError",
                           "Bot encountered an error: TypeError"]

/-- One bot turn: run `onMessage`; a thrown error is routed to the
adapter's `onTurnError` handler. -/
def processTurn (a : MessageActivity) : List String :=
  match onMessage a with
  | Except.ok replies => replies
  | Except.error e => onTurnError e

/-- The static welcome text of `bot.ts` line 27. -/
def welcomeText : String := "Hello! Send \"my id\" to see your Teams user ID."

/-- `EmptyBot.onMembersAdded` (`bot.ts` lines 25-34): for each added member
whose `id` differs from the recipient (bot) `id`, send the welcome text. -/
def onMembersAdded : List ChannelAccount → ChannelAccount → List String
  | [], _ => []
  | member :: rest, recipient =>
      if member.id == recipient.id then onMembersAdded rest recipient
      else welcomeText :: onMembersAdded rest recipient

/-! ## Ticket Poller (modelled from the spec)

The poller (`ticket_processor.py`) is documented by the repository README
but its source is not in the tree. -/

/-- A ticket record from the ticketing API (spec section 3): numeric ID,
subject, category, creation timestamp, optional priority. -/
structure Ticket where
  id : Nat
  subject : String
  category : String
  createdTime : Nat
  priority : Option String
deriving DecidableEq, Repr

/-- Modelled from the spec: the fetch step of the Ticket Poller
(`ticket_processor.py`, absent from the source tree).  Spec section 4.1:
"every fixed interval, fetch tickets with creation time strictly greater
than the stored watermark". -/
def fetchNewTickets (watermark : Nat) (available : List Ticket) : List Ticket :=
  available.filter (fun t => watermark < t.createdTime)

/-- Modelled from the spec: one poll cycle of the Ticket Poller
(`ticket_processor.py`, absent from the source tree).  It fetches the
tickets newer than the watermark, submits one notification request per
fetched ticket, and advances the watermark to the maximum creation time
observed.  Returns the tickets notified this cycle and the new watermark. -/
def pollCycle (watermark : Nat) (available : List Ticket) : List Ticket × Nat :=
  let fetched := fetchNewTickets watermark available
  (fetched, fetched.foldl (fun w t => max w t.createdTime) watermark)

/-! ## Claims -/

/-- C1 (counterexample): the claim says every `/notify` handler variant
answers HTTP 200 even when the downstream chat-delivery call fails, but the
express handler registered by `setupNotificationEndpoint`
(`notification-endpoint.ts` lines 10-13) answers 500 on a delivery failure,
even with a valid payload and a configured channel. -/
theorem express_notify_delivery_failure_not_200 :
    ¬ ((expressNotifyHandler
          { ticketId := 101, subject := "VPN down", assignedTo := "Jane Doe",
            teamsMention := "abc", category := "Network", priority := none }
          (DeliveryOutcome.failure "network error")).response.status = 200) := by
  decide

/-- C1 (amended): for the two restify `/notify` handlers of `index.ts`, a
valid payload with a configured channel ID always yields HTTP 200 — delivery
is attempted exactly once, and a delivery failure is logged while the caller
still receives 200.  The express handler of `notification-endpoint.ts`
instead answers 500 when delivery fails. -/
theorem restify_notify_always_200_on_configured_channel
    (env : Env) (p : NotifyPayload) (d : DeliveryOutcome)
    (h1 : jsTruthyStr env.TEAMS_CHANNEL_ID = true)
    (h2 : jsTruthyStr env.MicrosoftTeamsChannelId = true) :
    (notifyHandlerV1 env p d).response.status = 200 ∧
    (notifyHandlerV1 env p d).deliveryAttempts = 1 ∧
    (notifyHandlerV2 env p d).response.status = 200 ∧
    (notifyHandlerV2 env p d).deliveryAttempts = 1 ∧
    (∀ e, d = DeliveryOutcome.failure e →
      (notifyHandlerV1 env p d).errorLogs ≠ [] ∧
      (notifyHandlerV2 env p d).errorLogs ≠ []) := by
  cases d <;> simp [notifyHandlerV1, notifyHandlerV2, h1, h2]

/-- Witness for C1 (amended) at a concrete environment, payload and a failed
delivery. -/
theorem restify_notify_always_200_witness :
    (notifyHandlerV1
        { TEAMS_CHANNEL_ID := some "19:chan", MicrosoftTeamsChannelId := some "19:chan",
          TEAMS_BOT_APP_ID := some "app", MicrosoftAppId := some "app" }
        { ticketId := 101, assignedTo := "Jane Doe", summary := "VPN down", userId := none }
        (DeliveryOutcome.failure "boom")).response.status = 200 :=
  (restify_notify_always_200_on_configured_channel
      { TEAMS_CHANNEL_ID := some "19:chan", MicrosoftTeamsChannelId := some "19:chan",
        TEAMS_BOT_APP_ID := some "app", MicrosoftAppId := some "app" }
      { ticketId := 101, assignedTo := "Jane Doe", summary := "VPN down", userId := none }
      (DeliveryOutcome.failure "boom") (by decide) (by decide)).1

/-- C2: when the channel-ID environment variable is unset, each restify
`/notify` handler answers HTTP 500 and returns before any connector call:
zero delivery attempts, no message handed to the chat platform. -/
theorem notify_unset_channel_500_no_delivery
    (env : Env) (p : NotifyPayload) (d : DeliveryOutcome)
    (h1 : env.TEAMS_CHANNEL_ID = none)
    (h2 : env.MicrosoftTeamsChannelId = none) :
    (notifyHandlerV1 env p d).response.status = 500 ∧
    (notifyHandlerV1 env p d).deliveryAttempts = 0 ∧
    (notifyHandlerV1 env p d).attempted = [] ∧
    (notifyHandlerV2 env p d).response.status = 500 ∧
    (notifyHandlerV2 env p d).deliveryAttempts = 0 ∧
    (notifyHandlerV2 env p d).attempted = [] := by
  simp [notifyHandlerV1, notifyHandlerV2, h1, h2, jsTruthyStr]

/-- Witness for C2 at a concrete unset environment and payload. -/
theorem notify_unset_channel_witness :
    (notifyHandlerV1
        { TEAMS_CHANNEL_ID := none, MicrosoftTeamsChannelId := none,
          TEAMS_BOT_APP_ID := some "app", MicrosoftAppId := some "app" }
        { ticketId := 7, assignedTo := "Jane Doe", summary := "s", userId := none }
        DeliveryOutcome.ok).deliveryAttempts = 0 :=
  (notify_unset_channel_500_no_delivery
      { TEAMS_CHANNEL_ID := none, MicrosoftTeamsChannelId := none,
        TEAMS_BOT_APP_ID := some "app", MicrosoftAppId := some "app" }
      { ticketId := 7, assignedTo := "Jane Doe", summary := "s", userId := none }
      DeliveryOutcome.ok rfl rfl).2.1

/-- C3 (code bug): the mapping row for the sentinel assignee
"Needs human input" is configured as the empty string ("No user ID for this
special case"), but `getTeamsUserId` evaluates
`userMappings[name] || DEFAULT_USER_ID`, and the empty string is falsy in
JavaScript — so the sentinel resolves to the default identity instead of the
configured empty identity. -/
theorem sentinel_assignee_resolves_to_default_id :
    getTeamsUserId "Needs human input" = DEFAULT_USER_ID ∧
    DEFAULT_USER_ID ≠ "" := by
  decide

/-- C4 (code bug): "Needs human input" is present as a key of the static
mapping with configured value `""`, yet the resolver substitutes a different
identity for it (the `||` fallback swallows the configured empty row). -/
theorem mapped_sentinel_row_not_returned :
    lookupMapping "Needs human input" = some "" ∧
    getTeamsUserId "Needs human input" ≠ "" := by
  decide

/-- C5 (counterexample): a `/notify` payload carrying a present, non-empty
mention identity (`userId = "abc"`) does not cause a separate @-mention
message — the handler attempts exactly one message and it is not a mention
(the handlers never read `userId`). -/
theorem notify_mention_payload_counterexample :
    ({ ticketId := 101, assignedTo := "Jane Doe", summary := "s",
       userId := some "abc" } : NotifyPayload).userId = some "abc" ∧
    (∀ m ∈ (notifyHandlerV1
        { TEAMS_CHANNEL_ID := some "19:chan", MicrosoftTeamsChannelId := some "19:chan",
          TEAMS_BOT_APP_ID := some "app", MicrosoftAppId := some "app" }
        { ticketId := 101, assignedTo := "Jane Doe", summary := "s", userId := some "abc" }
        DeliveryOutcome.ok).attempted, isMentionMsg m = false) ∧
    (notifyHandlerV1
        { TEAMS_CHANNEL_ID := some "19:chan", MicrosoftTeamsChannelId := some "19:chan",
          TEAMS_BOT_APP_ID := some "app", MicrosoftAppId := some "app" }
        { ticketId := 101, assignedTo := "Jane Doe", summary := "s", userId := some "abc" }
        DeliveryOutcome.ok).attempted.length = 1 := by
  decide

/-- C5 (amended): the restify `/notify` handler ignores any `userId` field:
with a configured channel it attempts exactly one message — the notification
card — whether or not a mention identity is present, and never a separate
@-mention message. -/
theorem notify_ignores_userId_field
    (env : Env) (p : NotifyPayload) (d : DeliveryOutcome)
    (h : jsTruthyStr env.TEAMS_CHANNEL_ID = true) :
    (notifyHandlerV1 env p d).attempted =
      [SentMessage.card (mkCard p.ticketId p.assignedTo p.summary)] ∧
    (∀ m ∈ (notifyHandlerV1 env p d).attempted, isMentionMsg m = false) ∧
    (∀ u, notifyHandlerV1 env { p with userId := u } d = notifyHandlerV1 env p d) := by
  cases d <;> simp [notifyHandlerV1, h, isMentionMsg]

/-- Witness for C5 (amended): a payload with and without a mention identity
produces the same handler result. -/
theorem notify_ignores_userId_witness :
    notifyHandlerV1
        { TEAMS_CHANNEL_ID := some "19:chan", MicrosoftTeamsChannelId := some "19:chan",
          TEAMS_BOT_APP_ID := some "app", MicrosoftAppId := some "app" }
        { ticketId := 101, assignedTo := "Jane Doe", summary := "s", userId := some "zzz" }
        DeliveryOutcome.ok =
      notifyHandlerV1
        { TEAMS_CHANNEL_ID := some "19:chan", MicrosoftTeamsChannelId := some "19:chan",
          TEAMS_BOT_APP_ID := some "app", MicrosoftAppId := some "app" }
        { ticketId := 101, assignedTo := "Jane Doe", summary := "s", userId := none }
        DeliveryOutcome.ok :=
  (notify_ignores_userId_field
      { TEAMS_CHANNEL_ID := some "19:chan", MicrosoftTeamsChannelId := some "19:chan",
        TEAMS_BOT_APP_ID := some "app", MicrosoftAppId := some "app" }
      { ticketId := 101, assignedTo := "Jane Doe", summary := "s", userId := none }
      DeliveryOutcome.ok (by decide)).2.2 (some "zzz")

/-- C6 (modelled from the spec): a ticket whose creation time is at or below
the stored watermark is never among the tickets notified by the next poll
cycle; every notified ticket has creation time strictly above the
watermark. -/
theorem poller_skips_tickets_at_or_before_watermark
    (watermark : Nat) (available : List Ticket) (t : Ticket)
    (_hmem : t ∈ available) (hold : t.createdTime ≤ watermark) :
    t ∉ (pollCycle watermark available).1 ∧
    ∀ u ∈ (pollCycle watermark available).1, watermark < u.createdTime := by
  have key : ∀ u ∈ (pollCycle watermark available).1, watermark < u.createdTime := by
    intro u hu
    simp [pollCycle, fetchNewTickets] at hu
    exact hu.2
  exact ⟨fun hin => absurd (key t hin) (by omega), key⟩

/-- Witness for C6 at a concrete watermark and ticket list: the stale ticket
is not notified. -/
theorem poller_skips_witness :
    ({ id := 1, subject := "old", category := "Network", createdTime := 5,
       priority := none } : Ticket) ∉
      (pollCycle 5
        [ { id := 1, subject := "old", category := "Network", createdTime := 5,
            priority := none },
          { id := 2, subject := "new", category := "Network", createdTime := 6,
            priority := none } ]).1 :=
  (poller_skips_tickets_at_or_before_watermark 5
      [ { id := 1, subject := "old", category := "Network", createdTime := 5,
          priority := none },
        { id := 2, subject := "new", category := "Network", createdTime := 6,
          priority := none } ]
      { id := 1, subject := "old", category := "Network", createdTime := 5,
        priority := none }
      (by decide) (by decide)).1

/-- `'my id'` is already lowercase, so lowering it is the identity. -/
theorem myId_lower_fixed : strToLower "my id" = "my id" := by decide

/-- C7: for an inbound message activity carrying text, `onMessage` replies
with the sender's platform ID and AAD object ID exactly when the text
contains "my id" as a case-insensitive substring, and otherwise echoes the
text; in each case exactly one reply is sent. -/
theorem onMessage_reply_behavior
    (a : MessageActivity) (t : String) (h : a.text = some t) :
    (caseInsensitiveContains t "my id" = true →
       onMessage a = Except.ok [idReply a.sender]) ∧
    (caseInsensitiveContains t "my id" = false →
       onMessage a = Except.ok [echoReply t]) := by
  have hc : caseInsensitiveContains t "my id" = containsMyId t := by
    simp [caseInsensitiveContains, containsMyId, myId_lower_fixed]
  constructor <;> intro hcond <;>
    simp [onMessage, h, ← hc, hcond]

/-- Witness for C7: a message containing "MY ID" (case-insensitively) gets
the identity reply. -/
theorem onMessage_reply_witness :
    onMessage { text := some "What is MY ID please",
                sender := { id := "29:u1", name := "U", aadObjectId := some "aad1" } } =
      Except.ok [idReply { id := "29:u1", name := "U", aadObjectId := some "aad1" }] :=
  (onMessage_reply_behavior
      { text := some "What is MY ID please",
        sender := { id := "29:u1", name := "U", aadObjectId := some "aad1" } }
      "What is MY ID please" rfl).1 (by decide)

/-- Helper: the number of welcome messages equals the number of added
members whose ID differs from the recipient ID. -/
theorem onMembersAdded_length (ms : List ChannelAccount) (r : ChannelAccount) :
    (onMembersAdded ms r).length =
      (ms.filter (fun m => !(m.id == r.id))).length := by
  induction ms with
  | nil => rfl
  | cons m rest ih =>
      cases hm : (m.id == r.id) <;>
        simp [onMembersAdded, List.filter, hm, ih]

/-- Helper: every message sent by the members-added handler is the static
welcome text. -/
theorem onMembersAdded_all_welcome (ms : List ChannelAccount) (r : ChannelAccount) :
    ∀ s ∈ onMembersAdded ms r, s = welcomeText := by
  induction ms with
  | nil => intro s hs; simp [onMembersAdded] at hs
  | cons m rest ih =>
      intro s hs
      by_cases hm : (m.id == r.id) = true
      · exact ih s (by simpa [onMembersAdded, hm] using hs)
      · rcases (by simpa [onMembersAdded, hm] using hs : s = welcomeText ∨ s ∈ onMembersAdded rest r) with h | h
        · exact h
        · exact ih s h

/-- Helper: a members-added event listing only the bot itself produces no
welcome message. -/
theorem onMembersAdded_bot_only (ms : List ChannelAccount) (r : ChannelAccount)
    (h : ∀ m ∈ ms, m.id = r.id) : onMembersAdded ms r = [] := by
  induction ms with
  | nil => rfl
  | cons m rest ih =>
      have hm : (m.id == r.id) = true := by
        simp [h m (by simp)]
      simp [onMembersAdded, hm]
      exact ih (fun x hx => h x (by simp [hx]))

/-- C8: on a member-joined event the bot sends the static welcome once per
added member whose ID differs from the recipient (bot) ID — the count of
sends equals the count of non-bot members, every send is the welcome text,
and an event adding only the bot itself produces no welcome. -/
theorem onMembersAdded_welcomes_non_bot_members
    (members : List ChannelAccount) (recipient : ChannelAccount) :
    (onMembersAdded members recipient).length =
      (members.filter (fun m => !(m.id == recipient.id))).length ∧
    (∀ s ∈ onMembersAdded members recipient, s = welcomeText) ∧
    ((∀ m ∈ members, m.id = recipient.id) → onMembersAdded members recipient = []) :=
  ⟨onMembersAdded_length members recipient,
   onMembersAdded_all_welcome members recipient,
   onMembersAdded_bot_only members recipient⟩

/-- Witness for C8: an event adding only the bot account yields no
welcome. -/
theorem onMembersAdded_welcomes_witness :
    onMembersAdded [{ id := "28:bot", name := "Bot", aadObjectId := none }]
        { id := "28:bot", name := "Bot", aadObjectId := none } = [] :=
  (onMembersAdded_welcomes_non_bot_members
      [{ id := "28:bot", name := "Bot", aadObjectId := none }]
      { id := "28:bot", name := "Bot", aadObjectId := none }).2.2 (by decide)

/-- C9: the message handler is total exactly when the activity carries a
text field: with no text the `toLowerCase` access throws and the turn is
routed to the adapter's `onTurnError` handler; with text present the handler
returns a normal reply list. -/
theorem onMessage_requires_text_field (a : MessageActivity) :
    (a.text = none →
       onMessage a = Except.error TurnError.nullText ∧
       processTurn a = onTurnError TurnError.nullText) ∧
    (∀ t, a.text = some t → ∃ replies, onMessage a = Except.ok replies) := by
  constructor
  · intro h
    constructor
    · simp [onMessage, h]
    · simp [processTurn, onMessage, h]
  · intro t h
    by_cases hc : containsMyId t = true
    · exact ⟨[idReply a.sender], by simp [onMessage, h, hc]⟩
    · exact ⟨[echoReply t], by simp [onMessage, h, hc]⟩

/-- Witness for C9: a concrete activity without text reaches the error
branch and the turn ends in `onTurnError`. -/
theorem onMessage_requires_text_witness :
    processTurn { text := none, sender := { id := "29:u1", name := "U", aadObjectId := none } } =
      onTurnError TurnError.nullText :=
  ((onMessage_requires_text_field
      { text := none, sender := { id := "29:u1", name := "U", aadObjectId := none } }).1 rfl).2

/-- C10 (counterexample): a notification whose optional `priority` field is
set to the empty string renders no "Priority:" line — the JavaScript ternary
treats the empty string as falsy, so "line present iff the field is set"
fails. -/
theorem formatMessage_empty_priority_counterexample :
    ({ ticketId := 7, subject := "Printer down", assignedTo := "Jane Doe",
       teamsMention := "abc", category := "Hardware",
       priority := some "" } : TicketNotification).priority.isSome = true ∧
    strIncludes
      (formatMessage
        { ticketId := 7, subject := "Printer down", assignedTo := "Jane Doe",
          teamsMention := "abc", category := "Hardware", priority := some "" })
      "**Priority:**" = false := by
  decide

/-- C10 (amended): `formatMessage` renders the "Assigned To:" field from
`teamsMention` — the `assignedTo` display name does not influence the output
— and includes a "Priority:" line exactly when `priority` is set to a
non-empty string; a priority set to the empty string renders the same
message as an absent priority. -/
theorem formatMessage_renders_mention_and_priority (n : TicketNotification) :
    (∀ x, formatMessage { n with assignedTo := x } = formatMessage n) ∧
    (∃ pre post, formatMessage n = pre ++ ("**Assigned To:** " ++ n.teamsMention) ++ post) ∧
    (∀ p, n.priority = some p → p ≠ "" →
       ∃ pre post, formatMessage n = pre ++ ("**Priority:** " ++ p ++ "\n") ++ post) ∧
    (n.priority = some "" → formatMessage n = formatMessage { n with priority := none }) := by
  refine ⟨fun x => rfl, ?_, ?_, ?_⟩
  · exact ⟨"🎫 **New Ticket Assignment**\n\n" ++
      "**Ticket #" ++ toString n.ticketId ++ "**\n" ++
      "**Subject:** " ++ n.subject ++ "\n" ++
      "**Category:** " ++ n.category ++ "\n" ++
      priorityPart n.priority,
      "\n\n" ++ "Please review and acknowledge this ticket.",
      by simp [formatMessage, String.append_assoc]⟩
  · intro p hp hne
    refine ⟨"🎫 **New Ticket Assignment**\n\n" ++
      "**Ticket #" ++ toString n.ticketId ++ "**\n" ++
      "**Subject:** " ++ n.subject ++ "\n" ++
      "**Category:** " ++ n.category ++ "\n",
      "**Assigned To:** " ++ n.teamsMention ++ "\n\n" ++
      "Please review and acknowledge this ticket.", ?_⟩
    have hpp : priorityPart n.priority = "**Priority:** " ++ p ++ "\n" := by
      simp [priorityPart, hp, hne]
    simp only [formatMessage, hpp, String.append_assoc]
  · intro hp
    simp [formatMessage, hp, priorityPart]

/-- Witness for C10 (amended) at a concrete notification with a non-empty
priority: the "Priority:" line appears in the rendered message. -/
theorem formatMessage_priority_witness :
    ∃ pre post,
      formatMessage
        { ticketId := 7, subject := "Printer down", assignedTo := "Jane Doe",
          teamsMention := "abc", category := "Hardware", priority := some "High" } =
        pre ++ ("**Priority:** " ++ "High" ++ "\n") ++ post :=
  (formatMessage_renders_mention_and_priority
      { ticketId := 7, subject := "Printer down", assignedTo := "Jane Doe",
        teamsMention := "abc", category := "Hardware",
        priority := some "High" }).2.2.1 "High" rfl (by decide)
